import Mathlib

set_option autoImplicit false

/-
  Verification of the authentication and session-token lifecycle core of the
  MEGA-PROJECT backend (src/controllers/user.controllers.js,
  src/models/user.model.js, src/utils/ApiResponse.js, src/utils/cloudinary.js).

  The JavaScript controllers are embedded shallowly:
  * the Mongo user collection is a list of records, threaded explicitly;
  * jsonwebtoken is modelled by a deterministic signing function: a signed
    token is determined by its payload, its issued-at second, its expiry
    second and the secret that signed it (HS256 signing is deterministic, and
    the compact serialization is injective, so structural equality of these
    models string equality of the real tokens);
  * bcrypt is modelled by an idealized salted hash: hashing keeps the plain
    secret and the salt, comparison re-checks the plain secret - this matches
    the bcrypt contract consumed by the code (verify(p, hash(p, s)) = true,
    verify(p, hash(q, s)) = false for p != q);
  * a thrown ApiError and a raw runtime TypeError are the two error outcomes;
    every controller returns the (possibly updated) store next to an
    Except-style result.
-/

namespace MegaProject

/-- The two configured signing secrets plus an attacker-chosen key, so that
tokens signed with the wrong key are representable. -/
inductive Secret
  | accessSecret
  | refreshSecret
  | otherSecret
deriving DecidableEq

/-- Claims carried by a signed token: `generateAccessToken` embeds
the id, email, username and fullname; `generateRefreshToken` embeds only the id
(user.model.js lines 79-105). -/
inductive TokenPayload
  | access (uid : Nat) (email username fullname : String)
  | refresh (uid : Nat)
deriving DecidableEq

/-- The `_id` claim read back by `jwt.verify` consumers (`decodedToken?._id`). -/
def TokenPayload.uid : TokenPayload → Nat
  | .access i _ _ _ => i
  | .refresh i => i

/-- A signed compact token: payload, issued-at second, expiry second and the
secret that produced the signature. `jsonwebtoken` fills `iat` with the
current UNIX second and `exp := iat + expiresIn`. -/
structure Jwt where
  payload : TokenPayload
  iat : Nat
  exp : Nat
  sig : Secret
deriving DecidableEq

/-- The two verification failures of `jwt.verify` relevant here, with the
exact `message` the library puts on the thrown error. -/
inductive JwtError
  | invalidSignature
  | tokenExpired
deriving DecidableEq

def JwtError.message : JwtError → String
  | .invalidSignature => "invalid signature"
  | .tokenExpired => "jwt expired"

/-- `jwt.sign(payload, secret, expiresIn)` evaluated at UNIX second `now`. -/
def jwtSign (payload : TokenPayload) (secret : Secret) (expiresIn now : Nat) : Jwt :=
  { payload := payload, iat := now, exp := now + expiresIn, sig := secret }

/-- `jwt.verify(token, secret)` at UNIX second `now`: the signature is checked
before the expiry claim, and the token is expired when `now >= exp`. -/
def jwtVerify (t : Jwt) (secret : Secret) (now : Nat) : Except JwtError TokenPayload :=
  if t.sig ≠ secret then .error .invalidSignature
  else if t.exp ≤ now then .error .tokenExpired
  else .ok t.payload

/-- Idealized bcrypt digest: the hashed secret together with its random salt. -/
structure BcryptHash where
  plain : String
  salt : Nat
deriving DecidableEq

/-- `bcrypt.hash(plain, 10)` with the per-call random salt made explicit. -/
def bcryptHash (plain : String) (salt : Nat) : BcryptHash := ⟨plain, salt⟩

/-- `bcrypt.compare(plain, digest)`. -/
def bcryptCompare (plain : String) (h : BcryptHash) : Bool := plain == h.plain

/-- The user document as consumed by the auth core (user.model.js).
`username` and `email` are stored lowercase (schema `lowercase: true`;
the register controller additionally calls `username.toLowerCase()`).
`refreshToken` is the single-slot session field. The store-maintained
timestamps are not consumed by any controller and are omitted. -/
structure UserRec where
  id : Nat
  username : String
  email : String
  fullname : String
  avatar : String
  coverImage : String
  password : BcryptHash
  refreshToken : Option Jwt
deriving DecidableEq

abbrev Store := List UserRec

/-- JS `String.prototype.toLowerCase()`, character-wise (the identifiers in
play are ASCII). -/
def jsToLower (s : String) : String := ⟨s.data.map Char.toLower⟩

/-- JS `String.prototype.trim()`: drop leading and trailing whitespace. -/
def jsTrim (s : String) : String :=
  ⟨((s.data.dropWhile Char.isWhitespace).reverse.dropWhile Char.isWhitespace).reverse⟩

/-- `User.findById(id)`. -/
def findById (store : Store) (uid : Nat) : Option UserRec :=
  store.find? (fun u => u.id == uid)

/-- One `$or` disjunct of a `findOne` filter: absent (`undefined`) values
match nothing; present values are cast by the schema's `lowercase` setter
(Mongoose v6+ runs setters on query filters). -/
def optMatchesLower : Option String → String → Bool
  | some s, v => v == jsToLower s
  | none, _ => false

/-- `User.findOne with $or on username and email` as used by register and login. -/
def findByUsernameOrEmail (store : Store) (username email : Option String) : Option UserRec :=
  store.find? (fun u => optMatchesLower username u.username || optMatchesLower email u.email)

/-- `user.save()`: writes the document back over the record with the same id. -/
def saveUser (store : Store) (u : UserRec) : Store :=
  store.map (fun v => if v.id == u.id then u else v)

/-- The configured token lifetimes (ACCESS_TOKEN_EXPIRY, REFRESH_TOKEN_EXPIRY),
in seconds. -/
structure Config where
  accessExpiry : Nat
  refreshExpiry : Nat

/-- `userSchema.methods.generateAccessToken` (user.model.js lines 79-92). -/
def UserRec.generateAccessToken (u : UserRec) (cfg : Config) (now : Nat) : Jwt :=
  jwtSign (.access u.id u.email u.username u.fullname) .accessSecret cfg.accessExpiry now

/-- `userSchema.methods.generateRefreshToken` (user.model.js lines 95-105). -/
def UserRec.generateRefreshToken (u : UserRec) (cfg : Config) (now : Nat) : Jwt :=
  jwtSign (.refresh u.id) .refreshSecret cfg.refreshExpiry now

/-- `userSchema.methods.isPasswordCorrect` (user.model.js lines 74-76). -/
def UserRec.isPasswordCorrect (u : UserRec) (pw : String) : Bool :=
  bcryptCompare pw u.password

/-- A thrown `ApiError`: HTTP status code plus message (utils/ApiError.js). -/
structure ApiErrorRec where
  statusCode : Nat
  message : String
deriving DecidableEq

/-- A controller failure: a typed `ApiError`, or a raw runtime `TypeError`
escaping to the generic handler. -/
inductive Failure
  | api (e : ApiErrorRec)
  | typeError (msg : String)
deriving DecidableEq

/-- `ApiResponse` (utils/ApiResponse.js): `success := statusCode < 400`. -/
structure ApiResponse (α : Type) where
  statusCode : Nat
  data : α
  message : String
  success : Bool
deriving DecidableEq

/-- The `ApiResponse` constructor. -/
def mkApiResponse {α : Type} (statusCode : Nat) (data : α) (message : String) :
    ApiResponse α :=
  { statusCode := statusCode, data := data, message := message,
    success := Nat.blt statusCode 400 }

/-- A successful HTTP reply: the status passed to `res.status(...)` and the
JSON envelope passed to `.json(...)`. Cookies carry the same token values as
the body and are not modelled separately. -/
structure HttpOk (α : Type) where
  status : Nat
  body : ApiResponse α
deriving DecidableEq

/-- A controller outcome: the store after the call, and either a failure or a
successful reply. -/
abbrev CtrlResult (α : Type) := Store × Except Failure (HttpOk α)

/-- `generateAccessAndRefreshTokens(userId)` (user.controllers.js lines 26-50):
any throw inside the helper - including the missing-user case - is caught and
replaced by a 500 `ApiError` with a fixed message. On success the fresh
refresh token is persisted on the user document and both tokens are returned. -/
def generateAccessAndRefreshTokens (cfg : Config) (now : Nat) (store : Store)
    (userId : Nat) : Store × Except ApiErrorRec (Jwt × Jwt) :=
  match findById store userId with
  | none =>
      (store, .error ⟨500, "Something went wrong while generating refresh and access token"⟩)
  | some user =>
      let accessToken := user.generateAccessToken cfg now
      let refreshToken := user.generateRefreshToken cfg now
      (saveUser store { user with refreshToken := some refreshToken },
       .ok (accessToken, refreshToken))

/-- A JSON value, used where the code serializes whole documents so that the
presence or absence of a field can be stated. -/
inductive JVal
  | str (s : String)
  | num (n : Nat)
  | tok (t : Jwt)
  | null
deriving DecidableEq

/-- Serialization of a user document to its JSON fields, in schema order.
The password field serializes the idealized digest. -/
def UserRec.toDoc (u : UserRec) : List (String × JVal) :=
  [("_id", .num u.id),
   ("username", .str u.username),
   ("email", .str u.email),
   ("fullname", .str u.fullname),
   ("avatar", .str u.avatar),
   ("coverImage", .str u.coverImage),
   ("password", .str (u.password.plain ++ "#" ++ toString u.password.salt)),
   ("refreshToken", match u.refreshToken with | some t => .tok t | none => .null)]

/-- `.select("-password -refreshToken")` and friends: drop the excluded keys. -/
def selectExclude (doc : List (String × JVal)) (excluded : List String) :
    List (String × JVal) :=
  doc.filter (fun kv => !(excluded.contains kv.1))

/-- JS truthiness of an optional string field: `undefined` and the empty
string are falsy. -/
def truthy : Option String → Bool
  | none => false
  | some s => !(s == "")

/-- One field of the register validation
`field === undefined || field === null || field?.trim() === ""`. -/
def isBlank : Option String → Bool
  | none => true
  | some s => jsTrim s == ""

/-- A file entry produced by multer; `path` is optional so that an entry
without a `path` property is representable. -/
structure FileEntry where
  path : Option String
deriving DecidableEq

/-- The `req.files` object for the register route: multer's
`upload.fields([avatar, coverImage])` populates at most these two keys, and a
key is absent when no file was sent for it. -/
structure FilesObj where
  avatar : Option (List FileEntry)
  coverImage : Option (List FileEntry)
deriving DecidableEq

/-- The expression `req.files?.avatar[0]?.path` (user.controllers.js line 94)
under JS optional-chaining semantics: if `req.files` is absent the whole
expression is `undefined`; otherwise `avatar[0]` is evaluated without a guard,
so an absent `avatar` key raises a TypeError; `?.path` then guards the
element access. -/
def avatarPathExpr : Option FilesObj → Except Failure (Option String)
  | none => .ok none
  | some files =>
      match files.avatar with
      | none => .error (.typeError "Cannot read properties of undefined (reading 0)")
      | some [] => .ok none
      | some (entry :: _) => .ok entry.path

/-- The guarded cover-image extraction (user.controllers.js lines 97-100). -/
def coverImagePathExpr : Option FilesObj → Option String
  | none => none
  | some files =>
      match files.coverImage with
      | some (entry :: _) => entry.path
      | _ => none

/-- `uploadOnCloudinary` (utils/cloudinary.js): `null` for a missing path,
otherwise the host's answer, abstracted as a function from local path to an
optional public URL. -/
def uploadOnCloudinary (upload : String → Option String) :
    Option String → Option String
  | none => none
  | some p => upload p

/-- The id Mongo assigns to a freshly inserted document: strictly larger than
every id in the store. -/
def freshId (store : Store) : Nat :=
  (store.map UserRec.id).foldr Nat.max 0 + 1

/-- The document `User.create` inserts at registration
(user.controllers.js lines 117-124): the controller lowercases the username,
the schema setter lowercases the email, the pre-save hook hashes the
password, and `coverImage` falls back to the empty string. -/
def regNewUser (salt : Nat) (store : Store)
    (fullName email username password : Option String)
    (avatarUrl coverImageUrl : String) : UserRec :=
  { id := freshId store,
    username := jsToLower (username.getD ""),
    email := jsToLower (email.getD ""),
    fullname := fullName.getD "",
    avatar := avatarUrl,
    coverImage := coverImageUrl,
    password := bcryptHash (password.getD "") salt,
    refreshToken := none }

/-- `registerUser` (user.controllers.js lines 53-139). `upload` abstracts the
Cloudinary collaborator; `salt` is the bcrypt salt drawn for this request.
Field validation, the duplicate check, avatar extraction, the uploads, the
insert and the sanitized 201 reply follow the source line by line. -/
def registerUser (upload : String → Option String) (salt : Nat) (store : Store)
    (fullName email username password : Option String)
    (files : Option FilesObj) : CtrlResult (List (String × JVal)) :=
  if isBlank fullName || isBlank email || isBlank username || isBlank password then
    (store, .error (.api ⟨400, "All fields are required"⟩))
  else
    match findByUsernameOrEmail store username email with
    | some _ => (store, .error (.api ⟨409, "User with email or username already exists"⟩))
    | none =>
        match avatarPathExpr files with
        | .error e => (store, .error e)
        | .ok avatarLocalPath =>
            let coverImageLocalPath := coverImagePathExpr files
            match avatarLocalPath with
            | none => (store, .error (.api ⟨400, "Avatar file is required"⟩))
            | some ap =>
                match upload ap with
                | none => (store, .error (.api ⟨400, "Avatar file is required"⟩))
                | some avatarUrl =>
                    let coverImageUrl :=
                      (uploadOnCloudinary upload coverImageLocalPath).getD ""
                    let newUser :=
                      regNewUser salt store fullName email username password
                        avatarUrl coverImageUrl
                    let store1 := store ++ [newUser]
                    match findById store1 newUser.id with
                    | none =>
                        (store1, .error (.api ⟨500, "Something went wrong while registering the user"⟩))
                    | some createdUser =>
                        (store1, .ok ⟨201,
                          mkApiResponse 200
                            (selectExclude createdUser.toDoc ["password", "refreshToken"])
                            "User registered Successfully"⟩)

/-- The `data` object of a successful login reply (user.controllers.js
lines 201-211). -/
structure LoginData where
  user : List (String × JVal)
  accessToken : Jwt
  refreshToken : Jwt
deriving DecidableEq

/-- `loginUser` (user.controllers.js lines 147-212): requires a truthy
username or email, resolves the user, verifies the password, mints and
persists the token pair, and replies 200 with the sanitized user and both
tokens. -/
def loginUser (cfg : Config) (now : Nat) (store : Store)
    (username email : Option String) (password : String) : CtrlResult LoginData :=
  if !(truthy username || truthy email) then
    (store, .error (.api ⟨400, "username or email is required"⟩))
  else
    match findByUsernameOrEmail store username email with
    | none => (store, .error (.api ⟨404, "User does not exist"⟩))
    | some user =>
        if !(user.isPasswordCorrect password) then
          (store, .error (.api ⟨401, "Invalid credentials"⟩))
        else
          match generateAccessAndRefreshTokens cfg now store user.id with
          | (store1, .error e) => (store1, .error (.api e))
          | (store1, .ok (accessToken, refreshToken)) =>
              let loggedInUser :=
                match findById store1 user.id with
                | some v => selectExclude v.toDoc ["password", "refreshToken"]
                | none => []
              (store1, .ok ⟨200,
                mkApiResponse 200 ⟨loggedInUser, accessToken, refreshToken⟩
                  "User logged in successfully"⟩)

/-- Mongoose cast of `$set` on the refresh-token path. A JS `undefined` value
(`none` here) is stripped from the update by Mongoose (v6 and later always
delete `undefined` keys when casting updates), so the document is unchanged;
an explicit value (`some t`) is written. -/
def castSetRefreshToken (v : Option (Option Jwt)) (u : UserRec) : UserRec :=
  match v with
  | none => u
  | some t => { u with refreshToken := t }

/-- `User.findByIdAndUpdate(id, update-on-refreshToken, new)` as used by
logout. -/
def findByIdAndUpdateRefreshToken (store : Store) (uid : Nat)
    (v : Option (Option Jwt)) : Store :=
  store.map (fun u => if u.id == uid then castSetRefreshToken v u else u)

/-- `logoutUser` (user.controllers.js lines 219-253): issues the update
`$set` of `refreshToken` to `undefined` for the authenticated user, then
replies 200. The `undefined` is stripped by the Mongoose update cast (see
`castSetRefreshToken`), so no field is actually written. -/
def logoutUser (store : Store) (userId : Nat) : CtrlResult Unit :=
  (findByIdAndUpdateRefreshToken store userId none,
   .ok ⟨200, mkApiResponse 200 () "User logged Out"⟩)

/-- The `data` object of a successful refresh reply. -/
structure RefreshData where
  accessToken : Jwt
  refreshToken : Jwt
deriving DecidableEq

/-- `refreshAccessToken` (user.controllers.js lines 260-325). The incoming
token is the cookie or body fallback (`none` when neither is present). The
whole verification runs in a try block whose catch rethrows every error as a
401 `ApiError` carrying the caught error's own message, so the inner 401
throws keep their messages and the helper's 500 becomes a 401 with the 500's
message. -/
def refreshAccessToken (cfg : Config) (now : Nat) (store : Store)
    (incomingRefreshToken : Option Jwt) : CtrlResult RefreshData :=
  match incomingRefreshToken with
  | none => (store, .error (.api ⟨401, "unauthorized request"⟩))
  | some incoming =>
      match jwtVerify incoming .refreshSecret now with
      | .error e => (store, .error (.api ⟨401, e.message⟩))
      | .ok decodedToken =>
          match findById store decodedToken.uid with
          | none => (store, .error (.api ⟨401, "Invalid refresh token"⟩))
          | some user =>
              if some incoming ≠ user.refreshToken then
                (store, .error (.api ⟨401, "Refresh token is expired or used"⟩))
              else
                match generateAccessAndRefreshTokens cfg now store user.id with
                | (store1, .error e) => (store1, .error (.api ⟨401, e.message⟩))
                | (store1, .ok (accessToken, newRefreshToken)) =>
                    (store1, .ok ⟨200,
                      mkApiResponse 200 ⟨accessToken, newRefreshToken⟩
                        "Access token refreshed"⟩)

/-- `changeCurrentPassword` (user.controllers.js lines 332-362): fetches the
authenticated user (an absent user makes the unguarded method call throw a
raw TypeError), verifies the old password (400 on mismatch), then persists
the re-hashed new password. -/
def changeCurrentPassword (salt : Nat) (store : Store) (userId : Nat)
    (oldPassword newPassword : String) : CtrlResult Unit :=
  match findById store userId with
  | none =>
      (store, .error (.typeError "Cannot read properties of null (reading isPasswordCorrect)"))
  | some user =>
      if !(user.isPasswordCorrect oldPassword) then
        (store, .error (.api ⟨400, "Invalid old password"⟩))
      else
        (saveUser store { user with password := bcryptHash newPassword salt },
         .ok ⟨200, mkApiResponse 200 () "Password changed successfully"⟩)

/-
  Concrete scenario used by counterexamples and witnesses: one registered
  identity "alice", token lifetimes of 15 minutes and 10 days, and a login at
  UNIX second 100.
-/

/-- Concrete token lifetimes: 900 s for access, 864000 s for refresh. -/
def cfg0 : Config := ⟨900, 864000⟩

/-- A concrete Cloudinary collaborator that accepts every upload. -/
def upl0 : String → Option String := fun p => some ("http://cdn/" ++ p)

/-- The registered identity of the scenario. -/
def alice : UserRec :=
  { id := 1, username := "alice", email := "a@x.com", fullname := "Alice A",
    avatar := "http://cdn/av.png", coverImage := "",
    password := bcryptHash "secret1" 7, refreshToken := none }

/-- The store right after alice registered. -/
def store0 : Store := [alice]

/-- The refresh token minted by alice's login at second 100. -/
def r1tok : Jwt := jwtSign (.refresh 1) .refreshSecret cfg0.refreshExpiry 100

/-- Alice with the login-issued refresh token persisted. -/
def alice1 : UserRec := { alice with refreshToken := some r1tok }

/-- The store right after alice's login at second 100. -/
def store1 : Store := [alice1]

/-- A token over alice's id signed with a key that is not the refresh secret. -/
def forgedTok : Jwt :=
  { payload := .refresh 1, iat := 100, exp := 999999, sig := .otherSecret }

/-- A well-signed, unexpired refresh token for alice that is not the stored
one (issued at second 50). -/
def staleTok : Jwt := jwtSign (.refresh 1) .refreshSecret cfg0.refreshExpiry 50

/-
  Helper lemmas about the store operations.
-/

/-- A record found by id satisfies the id predicate. -/
theorem findById_id (store : Store) (uid : Nat) (u : UserRec)
    (h : findById store uid = some u) : u.id = uid := by
  have hp := List.find?_some h
  exact eq_of_beq hp

/-- Writing a document back and looking it up by its id returns the written
document, provided a document with that id was present. -/
theorem findById_saveUser (store : Store) (x v : UserRec)
    (h : findById store x.id = some v) :
    findById (saveUser store x) x.id = some x := by
  induction store with
  | nil => simp [findById] at h
  | cons a l ih =>
    by_cases ha : a.id = x.id
    · have hfa : (if (a.id == x.id) = true then x else a) = x := if_pos (by simp [ha])
      calc findById (saveUser (a :: l) x) x.id
          = List.find? (fun u => u.id == x.id)
              ((if (a.id == x.id) = true then x else a) :: saveUser l x) := rfl
        _ = List.find? (fun u => u.id == x.id) (x :: saveUser l x) := by rw [hfa]
        _ = some x := List.find?_cons_of_pos _ (by simp)
    · have hpa : ¬ ((a.id == x.id) = true) := by simp [ha]
      have hfa : (if (a.id == x.id) = true then x else a) = a := if_neg (by simp [ha])
      have hstep : findById (a :: l) x.id = findById l x.id :=
        List.find?_cons_of_neg _ hpa
      rw [hstep] at h
      calc findById (saveUser (a :: l) x) x.id
          = List.find? (fun u => u.id == x.id)
              ((if (a.id == x.id) = true then x else a) :: saveUser l x) := rfl
        _ = List.find? (fun u => u.id == x.id) (a :: saveUser l x) := by rw [hfa]
        _ = List.find? (fun u => u.id == x.id) (saveUser l x) :=
            List.find?_cons_of_neg _ hpa
        _ = some x := ih h

/-- Elements of a list bound every id below `freshId`. -/
theorem le_foldr_max (l : List Nat) (a : Nat) (h : a ∈ l) :
    a ≤ l.foldr Nat.max 0 := by
  induction l with
  | nil => cases h
  | cons b t ih =>
    rcases List.mem_cons.mp h with h | h
    · exact h ▸ Nat.le_max_left b (t.foldr Nat.max 0)
    · exact Nat.le_trans (ih h) (Nat.le_max_right b (t.foldr Nat.max 0))

/-- Every stored id is strictly below the freshly assigned one. -/
theorem id_lt_freshId (store : Store) (u : UserRec) (h : u ∈ store) :
    u.id < freshId store :=
  Nat.lt_succ_of_le (le_foldr_max (store.map UserRec.id) u.id
    (List.mem_map_of_mem UserRec.id h))

/-- Looking up an appended document by its id succeeds when no earlier
document carries that id. -/
theorem findById_append_of_new (store : Store) (x : UserRec)
    (h : ∀ u ∈ store, u.id ≠ x.id) :
    findById (store ++ [x]) x.id = some x := by
  induction store with
  | nil => simp [findById, List.find?]
  | cons a l ih =>
    have ha : (a.id == x.id) = false := by
      simpa using h a (List.mem_cons_self a l)
    simp only [findById, List.cons_append, List.find?, ha]
    exact ih (fun u hu => h u (List.mem_cons_of_mem a hu))

/-- Looking up a freshly inserted document by its id succeeds. -/
theorem findById_insert_fresh (store : Store) (x : UserRec)
    (hx : x.id = freshId store) :
    findById (store ++ [x]) x.id = some x :=
  findById_append_of_new store x (fun u hu =>
    Nat.ne_of_lt (hx ▸ id_lt_freshId store u hu))

/-- A key surviving `selectExclude` is not an excluded key. -/
theorem mem_selectExclude_keys (doc : List (String × JVal)) (excluded : List String)
    (kv : String × JVal) (h : kv ∈ selectExclude doc excluded) :
    kv.1 ∉ excluded := by
  have := List.of_mem_filter h
  simpa using this

/-- `generateAccessAndRefreshTokens` on an existing user: mints the pair at
`now` and persists the refresh token. -/
theorem generateTokens_ok (cfg : Config) (now : Nat) (store : Store) (uid : Nat)
    (u : UserRec) (h : findById store uid = some u) :
    generateAccessAndRefreshTokens cfg now store uid =
      (saveUser store { u with refreshToken := some (u.generateRefreshToken cfg now) },
       .ok (u.generateAccessToken cfg now, u.generateRefreshToken cfg now)) := by
  unfold generateAccessAndRefreshTokens
  rw [h]

/-- `generateAccessAndRefreshTokens` can only fail with the fixed 500 error,
leaving the store unchanged. -/
theorem generateTokens_error (cfg : Config) (now : Nat) (store : Store) (uid : Nat)
    (st : Store) (e : ApiErrorRec)
    (h : generateAccessAndRefreshTokens cfg now store uid = (st, .error e)) :
    st = store ∧
      e = ⟨500, "Something went wrong while generating refresh and access token"⟩ := by
  unfold generateAccessAndRefreshTokens at h
  cases hf : findById store uid with
  | none =>
    rw [hf] at h
    have h1 := congrArg Prod.fst h
    have h2 := congrArg Prod.snd h
    simp at h1 h2
    exact ⟨h1.symm, h2.symm⟩
  | some u =>
    rw [hf] at h
    have h2 := congrArg Prod.snd h
    simp at h2

/-- A successful login in full: the minted pair, the persisted refresh token
and the sanitized reply. -/
theorem loginUser_ok (cfg : Config) (now : Nat) (store : Store) (u : UserRec)
    (uname email : Option String) (pw : String)
    (htr : (truthy uname || truthy email) = true)
    (hfind : findByUsernameOrEmail store uname email = some u)
    (hid : findById store u.id = some u)
    (hpw : u.isPasswordCorrect pw = true) :
    loginUser cfg now store uname email pw =
      (saveUser store { u with refreshToken := some (u.generateRefreshToken cfg now) },
       .ok ⟨200, mkApiResponse 200
          ⟨selectExclude
              ({ u with refreshToken := some (u.generateRefreshToken cfg now) } : UserRec).toDoc
              ["password", "refreshToken"],
            u.generateAccessToken cfg now, u.generateRefreshToken cfg now⟩
          "User logged in successfully"⟩) := by
  have hgen := generateTokens_ok cfg now store u.id u hid
  have hsaved := findById_saveUser store
    { u with refreshToken := some (u.generateRefreshToken cfg now) } u hid
  unfold loginUser
  rw [htr, hfind]
  simp [hpw, hgen, hsaved]

/-- A successful registration in full: the new sanitized document is appended
with a fresh id and the reply is HTTP 201 with envelope statusCode 200. -/
theorem registerUser_ok (upload : String → Option String) (salt : Nat) (store : Store)
    (fullName email username password : Option String) (files : Option FilesObj)
    (ap url : String)
    (h1 : isBlank fullName = false) (h2 : isBlank email = false)
    (h3 : isBlank username = false) (h4 : isBlank password = false)
    (hdup : findByUsernameOrEmail store username email = none)
    (hav : avatarPathExpr files = .ok (some ap))
    (hup : upload ap = some url) :
    registerUser upload salt store fullName email username password files =
      (store ++ [regNewUser salt store fullName email username password url
          ((uploadOnCloudinary upload (coverImagePathExpr files)).getD "")],
       .ok ⟨201, mkApiResponse 200
          (selectExclude (regNewUser salt store fullName email username password url
              ((uploadOnCloudinary upload (coverImagePathExpr files)).getD "")).toDoc
            ["password", "refreshToken"])
          "User registered Successfully"⟩) := by
  have hfresh := findById_insert_fresh store
    (regNewUser salt store fullName email username password url
      ((uploadOnCloudinary upload (coverImagePathExpr files)).getD "")) rfl
  unfold registerUser
  rw [h1, h2, h3, h4, hdup, hav]
  simp [hup, hfresh]

/-- A successful refresh: a well-signed unexpired incoming token equal to the
stored one rotates the pair at `now`. -/
theorem refreshAccessToken_ok (cfg : Config) (now : Nat) (store : Store)
    (t : Jwt) (u : UserRec)
    (hsig : t.sig = .refreshSecret)
    (hexp : ¬ t.exp ≤ now)
    (hfind : findById store t.payload.uid = some u)
    (hstored : u.refreshToken = some t) :
    refreshAccessToken cfg now store (some t) =
      (saveUser store { u with refreshToken := some (u.generateRefreshToken cfg now) },
       .ok ⟨200, mkApiResponse 200
          ⟨u.generateAccessToken cfg now, u.generateRefreshToken cfg now⟩
          "Access token refreshed"⟩) := by
  have hid2 : u.id = t.payload.uid := findById_id store t.payload.uid u hfind
  have hgen := generateTokens_ok cfg now store u.id u (by rw [hid2]; exact hfind)
  unfold refreshAccessToken
  simp [jwtVerify, hsig, hexp, hfind, hstored, hgen]

/-- A rejected refresh: a well-signed unexpired incoming token that differs
from the stored one fails with the fixed 401 reuse error, store unchanged. -/
theorem refreshAccessToken_reuse (cfg : Config) (now : Nat) (store : Store)
    (t : Jwt) (u : UserRec)
    (hsig : t.sig = .refreshSecret)
    (hexp : ¬ t.exp ≤ now)
    (hfind : findById store t.payload.uid = some u)
    (hstored : ¬ (some t = u.refreshToken)) :
    refreshAccessToken cfg now store (some t) =
      (store, .error (.api ⟨401, "Refresh token is expired or used"⟩)) := by
  unfold refreshAccessToken
  simp [jwtVerify, hsig, hexp, hfind, hstored]

/-
  Claim theorems.
-/

/-- C1, counterexample: the claim "refresh presenting R1 returns R2 with
R2 != R1" is false as stated. `jwt.sign` is deterministic and `iat`/`exp`
have one-second granularity, so a refresh issued in the same second as the
login re-mints the identical refresh token: alice logs in at second 100
obtaining `r1tok`, refresh at second 100 presenting `r1tok` succeeds and
returns `r1tok` itself, and the store still holds `r1tok` - so presenting
`r1tok` again keeps succeeding instead of failing with 401. -/
theorem c1_counterexample_same_second_rotation :
    loginUser cfg0 100 store0 (some "alice") (some "a@x.com") "secret1" =
      (store1, .ok ⟨200, mkApiResponse 200
        ⟨selectExclude alice1.toDoc ["password", "refreshToken"],
         alice1.generateAccessToken cfg0 100, r1tok⟩
        "User logged in successfully"⟩) ∧
    refreshAccessToken cfg0 100 store1 (some r1tok) =
      (store1, .ok ⟨200, mkApiResponse 200
        ⟨alice1.generateAccessToken cfg0 100, r1tok⟩ "Access token refreshed"⟩) ∧
    (findById store1 1).map UserRec.refreshToken = some (some r1tok) :=
  ⟨rfl, rfl, rfl⟩

/-- The rotation-then-reuse behaviour of `refreshAccessToken` from an
arbitrary state holding a stored refresh token: the first presentation
rotates, the second presentation of the old token is rejected with 401 and
no state change, provided the freshly minted token differs from the old
one. -/
theorem refresh_rotation_core (cfg : Config) (t2 t3 : Nat) (st1 : Store)
    (u1 : UserRec) (R1 : Jwt)
    (hR1sig : R1.sig = .refreshSecret)
    (hR1uid : R1.payload.uid = u1.id)
    (hfind1 : findById st1 u1.id = some u1)
    (hstored : u1.refreshToken = some R1)
    (hneq : u1.generateRefreshToken cfg t2 ≠ R1)
    (hexp2 : ¬ R1.exp ≤ t2) (hexp3 : ¬ R1.exp ≤ t3) :
    ∃ st2 out2,
      refreshAccessToken cfg t2 st1 (some R1) = (st2, .ok out2) ∧
      out2.body.data.refreshToken ≠ R1 ∧
      (findById st2 u1.id).map UserRec.refreshToken =
        some (some out2.body.data.refreshToken) ∧
      refreshAccessToken cfg t3 st2 (some R1) =
        (st2, .error (.api ⟨401, "Refresh token is expired or used"⟩)) := by
  have hfindu : findById st1 R1.payload.uid = some u1 := by rw [hR1uid]; exact hfind1
  have href1 := refreshAccessToken_ok cfg t2 st1 R1 u1 hR1sig hexp2 hfindu hstored
  have hfind2 := findById_saveUser st1
    { u1 with refreshToken := some (u1.generateRefreshToken cfg t2) } u1 hfind1
  have hfindu2 : findById (saveUser st1
      { u1 with refreshToken := some (u1.generateRefreshToken cfg t2) })
      R1.payload.uid =
      some { u1 with refreshToken := some (u1.generateRefreshToken cfg t2) } := by
    rw [hR1uid]; exact hfind2
  have hreuse := refreshAccessToken_reuse cfg t3
    (saveUser st1 { u1 with refreshToken := some (u1.generateRefreshToken cfg t2) })
    R1 { u1 with refreshToken := some (u1.generateRefreshToken cfg t2) }
    hR1sig hexp3 hfindu2
    (by intro hEq; exact hneq (Option.some.inj hEq.symm))
  refine ⟨_, _, href1, hneq, ?_, hreuse⟩
  rw [hfind2]
  rfl

/-- C1, amended: when the refresh call is issued at a strictly later second
than the login (distinct `iat`) and while R1 is unexpired, the refresh with
R1 succeeds, returns R2 different from R1, persists R2 as the stored
`refreshToken`, and any later refresh presenting R1 while R1 is still
unexpired fails with 401 "Refresh token is expired or used" leaving the
store unchanged. -/
theorem c1_rotation_rotates_and_rejects_reuse (cfg : Config) (store : Store)
    (u : UserRec) (uname email : Option String) (pw : String) (t1 t2 t3 : Nat)
    (htr : (truthy uname || truthy email) = true)
    (hfind : findByUsernameOrEmail store uname email = some u)
    (hid : findById store u.id = some u)
    (hpw : u.isPasswordCorrect pw = true)
    (h12 : t1 < t2)
    (h2e : t2 < t1 + cfg.refreshExpiry)
    (h3e : t3 < t1 + cfg.refreshExpiry) :
    ∃ st1 out1 st2 out2,
      loginUser cfg t1 store uname email pw = (st1, .ok out1) ∧
      refreshAccessToken cfg t2 st1 (some out1.body.data.refreshToken) =
        (st2, .ok out2) ∧
      out2.body.data.refreshToken ≠ out1.body.data.refreshToken ∧
      (findById st2 u.id).map UserRec.refreshToken =
        some (some out2.body.data.refreshToken) ∧
      t3 < out1.body.data.refreshToken.exp ∧
      refreshAccessToken cfg t3 st2 (some out1.body.data.refreshToken) =
        (st2, .error (.api ⟨401, "Refresh token is expired or used"⟩)) := by
  have hlog := loginUser_ok cfg t1 store u uname email pw htr hfind hid hpw
  have hfind1 : findById (saveUser store
      { u with refreshToken := some (u.generateRefreshToken cfg t1) }) u.id =
      some { u with refreshToken := some (u.generateRefreshToken cfg t1) } :=
    findById_saveUser store
      { u with refreshToken := some (u.generateRefreshToken cfg t1) } u hid
  have hneq : ({ u with refreshToken := some (u.generateRefreshToken cfg t1) } :
      UserRec).generateRefreshToken cfg t2 ≠ u.generateRefreshToken cfg t1 := by
    intro hEq
    have hiat := congrArg Jwt.iat hEq
    simp [UserRec.generateRefreshToken, jwtSign] at hiat
    omega
  obtain ⟨st2, out2, hrot, hne2, hmap2, hreuse⟩ :=
    refresh_rotation_core cfg t2 t3
      (saveUser store { u with refreshToken := some (u.generateRefreshToken cfg t1) })
      { u with refreshToken := some (u.generateRefreshToken cfg t1) }
      (u.generateRefreshToken cfg t1)
      rfl rfl hfind1 rfl hneq (Nat.not_le.mpr h2e) (Nat.not_le.mpr h3e)
  exact ⟨_, _, st2, out2, hlog, hrot, hne2, hmap2, h3e, hreuse⟩

/-- C1, witness: the amended rotation property evaluated on the concrete
alice scenario with login at second 100, refresh at 101 and the reuse
attempt at 102. -/
theorem c1_rotation_witness :
    ∃ st1 out1 st2 out2,
      loginUser cfg0 100 store0 (some "alice") (some "a@x.com") "secret1" =
        (st1, .ok out1) ∧
      refreshAccessToken cfg0 101 st1 (some out1.body.data.refreshToken) =
        (st2, .ok out2) ∧
      out2.body.data.refreshToken ≠ out1.body.data.refreshToken ∧
      (findById st2 alice.id).map UserRec.refreshToken =
        some (some out2.body.data.refreshToken) ∧
      102 < out1.body.data.refreshToken.exp ∧
      refreshAccessToken cfg0 102 st2 (some out1.body.data.refreshToken) =
        (st2, .error (.api ⟨401, "Refresh token is expired or used"⟩)) :=
  c1_rotation_rotates_and_rejects_reuse cfg0 store0 alice
    (some "alice") (some "a@x.com") "secret1" 100 101 102
    rfl rfl rfl rfl (by decide) (by decide) (by decide)

/-- C2, code bug: logout does not clear the stored refresh token. The update
passes `refreshToken: undefined` under `$set`, and the Mongoose update cast
deletes `undefined` keys, so the write is a no-op - contradicting the code's
own comments ("Remove refresh token from database to invalidate user
session"). Concretely: with alice logged in (store1 holds `r1tok`), logout
replies 200 but leaves the store unchanged with `r1tok` still stored, and a
subsequent refresh presenting `r1tok` succeeds with 200 instead of failing
with 401. -/
theorem c2_logout_does_not_invalidate_session :
    logoutUser store1 1 =
      (store1, .ok ⟨200, mkApiResponse 200 () "User logged Out"⟩) ∧
    (findById (logoutUser store1 1).1 1).map UserRec.refreshToken =
      some (some r1tok) ∧
    (refreshAccessToken cfg0 101 (logoutUser store1 1).1 (some r1tok)).2 =
      .ok ⟨200, mkApiResponse 200
        ⟨alice1.generateAccessToken cfg0 101, alice1.generateRefreshToken cfg0 101⟩
        "Access token refreshed"⟩ :=
  ⟨rfl, rfl, rfl⟩

/-- C3, counterexample: two refresh requests that fail different checks both
yield 401 but with different messages, so the response does reveal which
check failed: a token signed with the wrong key fails with the verifier's
"invalid signature", while a well-signed but superseded token fails with
"Refresh token is expired or used". -/
theorem c3_counterexample_distinct_messages :
    (refreshAccessToken cfg0 100 store1 (some forgedTok)).2 =
      .error (.api ⟨401, "invalid signature"⟩) ∧
    (refreshAccessToken cfg0 100 store1 (some staleTok)).2 =
      .error (.api ⟨401, "Refresh token is expired or used"⟩) ∧
    ("invalid signature" : String) ≠ "Refresh token is expired or used" :=
  ⟨rfl, rfl, by decide⟩

/-- C3, amended: every failing refresh - whichever of the checks failed -
yields an `ApiError` with HTTP status 401 and leaves the store unchanged,
but the message depends on the failed check (it is the verifier's own
message for signature and expiry failures, "Invalid refresh token" for an
unknown identity, and "Refresh token is expired or used" for a stored-token
mismatch), so only the status is undifferentiated, not the message. -/
theorem c3_refresh_failures_all_401 (cfg : Config) (now : Nat) (store : Store)
    (tok : Option Jwt) (st : Store) (e : Failure)
    (h : refreshAccessToken cfg now store tok = (st, .error e)) :
    st = store ∧ ∃ msg, e = .api ⟨401, msg⟩ := by
  cases tok with
  | none =>
    simp only [refreshAccessToken] at h
    have h1 := congrArg Prod.fst h
    have h2 := congrArg Prod.snd h
    simp at h1 h2
    exact ⟨h1.symm, _, h2.symm⟩
  | some t =>
    simp only [refreshAccessToken] at h
    cases hv : jwtVerify t .refreshSecret now with
    | error je =>
      simp only [hv] at h
      have h1 := congrArg Prod.fst h
      have h2 := congrArg Prod.snd h
      simp at h1 h2
      exact ⟨h1.symm, _, h2.symm⟩
    | ok p =>
      simp only [hv] at h
      cases hf : findById store p.uid with
      | none =>
        simp only [hf] at h
        have h1 := congrArg Prod.fst h
        have h2 := congrArg Prod.snd h
        simp at h1 h2
        exact ⟨h1.symm, _, h2.symm⟩
      | some user =>
        simp only [hf] at h
        by_cases hne : some t ≠ user.refreshToken
        · rw [if_pos hne] at h
          have h1 := congrArg Prod.fst h
          have h2 := congrArg Prod.snd h
          simp at h1 h2
          exact ⟨h1.symm, _, h2.symm⟩
        · rw [if_neg hne] at h
          rcases hg : generateAccessAndRefreshTokens cfg now store user.id with ⟨st1, r⟩
          cases r with
          | error e2 =>
            simp only [hg] at h
            obtain ⟨hst, _⟩ := generateTokens_error cfg now store user.id st1 e2 hg
            have h1 := congrArg Prod.fst h
            have h2 := congrArg Prod.snd h
            simp at h1 h2
            exact ⟨h1.symm.trans hst, _, h2.symm⟩
          | ok pr =>
            rcases pr with ⟨a, r2⟩
            simp only [hg] at h
            have h2 := congrArg Prod.snd h
            simp at h2

/-- C3, witness: the amended all-failures-are-401 theorem applied to the
concrete rejected reuse of a superseded token. -/
theorem c3_refresh_failures_all_401_witness :
    store1 = store1 ∧
    ∃ msg, (Failure.api ⟨401, "Refresh token is expired or used"⟩ : Failure) =
      .api ⟨401, msg⟩ :=
  c3_refresh_failures_all_401 cfg0 100 store1 (some staleTok) store1
    (.api ⟨401, "Refresh token is expired or used"⟩) rfl

/-- C4: login with the correct password for an existing identity succeeds
and the refresh token stored on the identity equals the one returned in the
response; login with an incorrect password fails with a 401 `ApiError` and
the store - including the stored refresh token - is unchanged. -/
theorem c4_login_correctness (cfg : Config) (now : Nat) (store : Store)
    (u : UserRec) (uname email : Option String) (pwGood pwBad : String)
    (htr : (truthy uname || truthy email) = true)
    (hfind : findByUsernameOrEmail store uname email = some u)
    (hid : findById store u.id = some u)
    (hgood : u.isPasswordCorrect pwGood = true)
    (hbad : u.isPasswordCorrect pwBad = false) :
    (∃ st1 out, loginUser cfg now store uname email pwGood = (st1, .ok out) ∧
      (findById st1 u.id).map UserRec.refreshToken =
        some (some out.body.data.refreshToken)) ∧
    loginUser cfg now store uname email pwBad =
      (store, .error (.api ⟨401, "Invalid credentials"⟩)) := by
  constructor
  · have hlog := loginUser_ok cfg now store u uname email pwGood htr hfind hid hgood
    refine ⟨_, _, hlog, ?_⟩
    have hf1 := findById_saveUser store
      { u with refreshToken := some (u.generateRefreshToken cfg now) } u hid
    rw [hf1]
    rfl
  · unfold loginUser
    rw [htr, hfind]
    simp [hbad]

/-- C4, witness: alice's login with "secret1" succeeds storing the returned
refresh token, and with "wrong" fails 401 leaving the store unchanged. -/
theorem c4_login_correctness_witness :
    (∃ st1 out, loginUser cfg0 100 store0 (some "alice") (some "a@x.com") "secret1" =
        (st1, .ok out) ∧
      (findById st1 alice.id).map UserRec.refreshToken =
        some (some out.body.data.refreshToken)) ∧
    loginUser cfg0 100 store0 (some "alice") (some "a@x.com") "wrong" =
      (store0, .error (.api ⟨401, "Invalid credentials"⟩)) :=
  c4_login_correctness cfg0 100 store0 alice (some "alice") (some "a@x.com")
    "secret1" "wrong" rfl rfl rfl rfl rfl

/-- C5: a second registration whose username collides case-insensitively or
whose email collides with an already-registered identity fails with the 409
conflict `ApiError`, and the store is returned unchanged - no record is
created or modified. -/
theorem c5_duplicate_registration_conflict (upload : String → Option String)
    (salt : Nat) (store : Store) (u : UserRec) (fn em un pw : String)
    (files : Option FilesObj)
    (hmem : u ∈ store)
    (hcol : u.username = jsToLower un ∨ u.email = jsToLower em)
    (h1 : isBlank (some fn) = false) (h2 : isBlank (some em) = false)
    (h3 : isBlank (some un) = false) (h4 : isBlank (some pw) = false) :
    registerUser upload salt store (some fn) (some em) (some un) (some pw) files =
      (store, .error (.api ⟨409, "User with email or username already exists"⟩)) := by
  have hp : (optMatchesLower (some un) u.username
      || optMatchesLower (some em) u.email) = true := by
    rcases hcol with hcol | hcol <;> simp [optMatchesLower, hcol]
  have hsome : (findByUsernameOrEmail store (some un) (some em)).isSome := by
    unfold findByUsernameOrEmail
    rw [List.find?_isSome]
    exact ⟨u, hmem, hp⟩
  rcases hf : findByUsernameOrEmail store (some un) (some em) with _ | w
  · rw [hf] at hsome
    simp at hsome
  · unfold registerUser
    rw [h1, h2, h3, h4, hf]
    simp

/-- C5, witness: with alice registered, a second registration as "Alice"
(case-insensitive collision on the username) is rejected with 409 and the
store is unchanged. -/
theorem c5_duplicate_registration_conflict_witness :
    registerUser upl0 7 store0 (some "Bob B") (some "other@x.com") (some "Alice")
        (some "pw2") none =
      (store0, .error (.api ⟨409, "User with email or username already exists"⟩)) :=
  c5_duplicate_registration_conflict upl0 7 store0 alice "Bob B" "other@x.com"
    "Alice" "pw2" none (by simp [store0]) (Or.inl rfl) rfl rfl rfl rfl

/-- C6: a valid registration succeeds and the identity object in the reply
contains neither a `password` key nor a `refreshToken` key (the stored
document is re-fetched with `.select("-password -refreshToken")`). -/
theorem c6_register_response_sanitized (upload : String → Option String)
    (salt : Nat) (store : Store)
    (fullName email username password : Option String) (files : Option FilesObj)
    (ap url : String)
    (h1 : isBlank fullName = false) (h2 : isBlank email = false)
    (h3 : isBlank username = false) (h4 : isBlank password = false)
    (hdup : findByUsernameOrEmail store username email = none)
    (hav : avatarPathExpr files = .ok (some ap))
    (hup : upload ap = some url) :
    ∃ st out,
      registerUser upload salt store fullName email username password files =
        (st, .ok out) ∧
      ∀ kv ∈ out.body.data, kv.1 ≠ "password" ∧ kv.1 ≠ "refreshToken" := by
  refine ⟨_, _, registerUser_ok upload salt store fullName email username password
    files ap url h1 h2 h3 h4 hdup hav hup, ?_⟩
  intro kv hkv
  have hmem := mem_selectExclude_keys _ _ _ hkv
  constructor
  · intro hq
    exact hmem (by simp [hq])
  · intro hq
    exact hmem (by simp [hq])

/-- C6, witness: the sanitized-response property applied to a concrete valid
registration on the empty store. -/
theorem c6_register_response_sanitized_witness :
    ∃ st out,
      registerUser upl0 7 [] (some "Alice A") (some "a@x.com") (some "alice")
          (some "secret1") (some ⟨some [⟨some "av.png"⟩], none⟩) =
        (st, .ok out) ∧
      ∀ kv ∈ out.body.data, kv.1 ≠ "password" ∧ kv.1 ≠ "refreshToken" :=
  c6_register_response_sanitized upl0 7 [] (some "Alice A") (some "a@x.com")
    (some "alice") (some "secret1") (some ⟨some [⟨some "av.png"⟩], none⟩)
    "av.png" "http://cdn/av.png" rfl rfl rfl rfl rfl rfl rfl

/-- C7: a successful password change rewrites only the password digest of
the authenticated identity; its stored `refreshToken` is identical before
and after, and looking the user up again returns the same refresh token. -/
theorem c7_change_password_preserves_refresh_token (salt : Nat) (store : Store)
    (u : UserRec) (oldPw newPw : String)
    (hid : findById store u.id = some u)
    (hpw : u.isPasswordCorrect oldPw = true) :
    changeCurrentPassword salt store u.id oldPw newPw =
      (saveUser store { u with password := bcryptHash newPw salt },
       .ok ⟨200, mkApiResponse 200 () "Password changed successfully"⟩) ∧
    ({ u with password := bcryptHash newPw salt } : UserRec).refreshToken =
      u.refreshToken ∧
    (findById (saveUser store { u with password := bcryptHash newPw salt }) u.id).map
        UserRec.refreshToken = some u.refreshToken := by
  refine ⟨?_, rfl, ?_⟩
  · unfold changeCurrentPassword
    rw [hid]
    simp [hpw]
  · have hf2 := findById_saveUser store
      { u with password := bcryptHash newPw salt } u hid
    rw [hf2]
    rfl

/-- C7, witness: alice changes "secret1" to "newpw"; the stored refresh
token (here the one from her login) is untouched. -/
theorem c7_change_password_preserves_refresh_token_witness :
    changeCurrentPassword 9 store1 alice1.id "secret1" "newpw" =
      (saveUser store1 { alice1 with password := bcryptHash "newpw" 9 },
       .ok ⟨200, mkApiResponse 200 () "Password changed successfully"⟩) ∧
    ({ alice1 with password := bcryptHash "newpw" 9 } : UserRec).refreshToken =
      alice1.refreshToken ∧
    (findById (saveUser store1 { alice1 with password := bcryptHash "newpw" 9 })
        alice1.id).map UserRec.refreshToken = some alice1.refreshToken :=
  c7_change_password_preserves_refresh_token 9 store1 alice1 "secret1" "newpw"
    rfl rfl

/-- C8, counterexample: a login whose username and email match no identity
fails with status 404 ("User does not exist"), not with the claimed 401. -/
theorem c8_counterexample_login_unknown_404 :
    loginUser cfg0 100 store0 (some "bob") (some "b@x.com") "pw" =
      (store0, .error (.api ⟨404, "User does not exist"⟩)) ∧
    (404 : Nat) ≠ 401 :=
  ⟨rfl, by decide⟩

/-- C8, amended: a login request whose supplied username/email matches no
existing identity fails with an `ApiError` carrying HTTP status 404 and the
message "User does not exist" (the code uses the not-found class here, not
the 401 authentication class), leaving the store unchanged. -/
theorem c8_login_unknown_identity_404 (cfg : Config) (now : Nat) (store : Store)
    (uname email : Option String) (pw : String)
    (htr : (truthy uname || truthy email) = true)
    (hfind : findByUsernameOrEmail store uname email = none) :
    loginUser cfg now store uname email pw =
      (store, .error (.api ⟨404, "User does not exist"⟩)) := by
  unfold loginUser
  rw [htr, hfind]
  simp

/-- C8, witness: the 404 behaviour at the concrete unknown user "bob". -/
theorem c8_login_unknown_identity_404_witness :
    loginUser cfg0 100 store0 (some "bob") (some "b@x.com") "pw" =
      (store0, .error (.api ⟨404, "User does not exist"⟩)) :=
  c8_login_unknown_identity_404 cfg0 100 store0 (some "bob") (some "b@x.com")
    "pw" rfl rfl

/-- C9, counterexample: a successful registration replies with HTTP status
201 while the envelope's `statusCode` field is 200 - the two are not equal,
so the envelope does not mirror the HTTP status here (the source passes 201
to `res.status` but 200 to the `ApiResponse` constructor). -/
theorem c9_counterexample_status_mismatch :
    ∃ st out,
      registerUser upl0 7 [] (some "Alice A") (some "a@x.com") (some "alice")
          (some "secret1") (some ⟨some [⟨some "av.png"⟩], none⟩) =
        (st, .ok out) ∧
      out.status = 201 ∧ out.body.statusCode = 200 ∧ out.status ≠ out.body.statusCode :=
  ⟨_, _, rfl, rfl, rfl, by decide⟩

/-- C9, amended: for every valid registration the HTTP status is 201 (as the
route table states) but the envelope's `statusCode` is 200 with
`success = true`; HTTP status and envelope statusCode differ at this
endpoint. -/
theorem c9_register_status_201_envelope_200 (upload : String → Option String)
    (salt : Nat) (store : Store)
    (fullName email username password : Option String) (files : Option FilesObj)
    (ap url : String)
    (h1 : isBlank fullName = false) (h2 : isBlank email = false)
    (h3 : isBlank username = false) (h4 : isBlank password = false)
    (hdup : findByUsernameOrEmail store username email = none)
    (hav : avatarPathExpr files = .ok (some ap))
    (hup : upload ap = some url) :
    ∃ st out,
      registerUser upload salt store fullName email username password files =
        (st, .ok out) ∧
      out.status = 201 ∧ out.body.statusCode = 200 ∧ out.body.success = true :=
  ⟨_, _, registerUser_ok upload salt store fullName email username password
    files ap url h1 h2 h3 h4 hdup hav hup, rfl, rfl, rfl⟩

/-- C9, witness: the amended status property at a concrete registration. -/
theorem c9_register_status_201_envelope_200_witness :
    ∃ st out,
      registerUser upl0 7 [] (some "Alice A") (some "a@x.com") (some "alice")
          (some "secret1") (some ⟨some [⟨some "av.png"⟩], none⟩) =
        (st, .ok out) ∧
      out.status = 201 ∧ out.body.statusCode = 200 ∧ out.body.success = true :=
  c9_register_status_201_envelope_200 upl0 7 [] (some "Alice A") (some "a@x.com")
    (some "alice") (some "secret1") (some ⟨some [⟨some "av.png"⟩], none⟩)
    "av.png" "http://cdn/av.png" rfl rfl rfl rfl rfl rfl rfl

/-- C10: the avatar-path extraction is not total. For any well-formed
request that passes validation and the duplicate check: (i) if the parsed
files object is present but has no `avatar` entry, `registerUser` throws a
raw TypeError (evaluating `avatar[0]` of `undefined`), not the typed 400;
the typed 400 "Avatar file is required" is reached exactly when (ii) the
files object itself is absent, (iii) the `avatar` entry is an empty array,
or (iv) the first avatar entry has no `path`. -/
theorem c10_avatar_extraction_partial (upload : String → Option String)
    (salt : Nat) (store : Store)
    (fullName email username password : Option String)
    (h1 : isBlank fullName = false) (h2 : isBlank email = false)
    (h3 : isBlank username = false) (h4 : isBlank password = false)
    (hdup : findByUsernameOrEmail store username email = none) :
    (∀ fobj : FilesObj, fobj.avatar = none →
      registerUser upload salt store fullName email username password (some fobj) =
        (store, .error (.typeError "Cannot read properties of undefined (reading 0)"))) ∧
    (registerUser upload salt store fullName email username password none =
        (store, .error (.api ⟨400, "Avatar file is required"⟩))) ∧
    (∀ fobj : FilesObj, fobj.avatar = some [] →
      registerUser upload salt store fullName email username password (some fobj) =
        (store, .error (.api ⟨400, "Avatar file is required"⟩))) ∧
    (∀ (fobj : FilesObj) (entry : FileEntry) (rest : List FileEntry),
      fobj.avatar = some (entry :: rest) → entry.path = none →
      registerUser upload salt store fullName email username password (some fobj) =
        (store, .error (.api ⟨400, "Avatar file is required"⟩))) := by
  refine ⟨?_, ?_, ?_, ?_⟩
  · intro fobj hav
    unfold registerUser
    rw [h1, h2, h3, h4, hdup]
    simp [avatarPathExpr, hav]
  · unfold registerUser
    rw [h1, h2, h3, h4, hdup]
    simp [avatarPathExpr]
  · intro fobj hav
    unfold registerUser
    rw [h1, h2, h3, h4, hdup]
    simp [avatarPathExpr, hav]
  · intro fobj entry rest hav hpath
    unfold registerUser
    rw [h1, h2, h3, h4, hdup]
    simp [avatarPathExpr, hav, hpath]

/-- C10, witness: with valid fields on the empty store, a files object
holding only a cover image makes `registerUser` throw the raw TypeError,
while an absent files object, an empty avatar array and a path-less avatar
entry each produce the typed 400. -/
theorem c10_avatar_extraction_partial_witness :
    (registerUser upl0 7 [] (some "Bob B") (some "b@x.com") (some "bob")
        (some "pw2") (some ⟨none, some [⟨some "cov.png"⟩]⟩) =
      ([], .error (.typeError "Cannot read properties of undefined (reading 0)"))) ∧
    (registerUser upl0 7 [] (some "Bob B") (some "b@x.com") (some "bob")
        (some "pw2") none =
      ([], .error (.api ⟨400, "Avatar file is required"⟩))) ∧
    (registerUser upl0 7 [] (some "Bob B") (some "b@x.com") (some "bob")
        (some "pw2") (some ⟨some [], none⟩) =
      ([], .error (.api ⟨400, "Avatar file is required"⟩))) ∧
    (registerUser upl0 7 [] (some "Bob B") (some "b@x.com") (some "bob")
        (some "pw2") (some ⟨some [⟨none⟩], none⟩) =
      ([], .error (.api ⟨400, "Avatar file is required"⟩))) := by
  have h := c10_avatar_extraction_partial upl0 7 [] (some "Bob B") (some "b@x.com")
    (some "bob") (some "pw2") rfl rfl rfl rfl rfl
  exact ⟨h.1 ⟨none, some [⟨some "cov.png"⟩]⟩ rfl, h.2.1,
    h.2.2.1 ⟨some [], none⟩ rfl, h.2.2.2 ⟨some [⟨none⟩], none⟩ ⟨none⟩ [] rfl rfl⟩

end MegaProject
